import Mathlib

set_option autoImplicit false

/-!
Shallow embedding of `src/freemap/freemap.py` (MBTiles tile extractor) and
verification of its specification.

The Python program reads tile rows from an SQLite MBTiles archive and writes
one image file per tile under `output_dir/<zoom>/<x>/<y>.<format>`, flipping
the row coordinate from TMS to XYZ unless `--tms` is passed.  SQL access is
modelled by the `Query` type (a result or an `sqlite3.OperationalError`),
console output by the `Msg` type, and I/O failures in the per-tile loop by an
injected fault function.
-/

namespace Freemap

/-- One row of the `tiles` table: columns
`zoom_level, tile_column, tile_row, tile_data` (freemap.py line 110).
`tile_column` and `tile_row` are SQLite integers, hence `Int`; the payload is
an opaque byte blob. -/
structure TileRow where
  zoom : Nat
  col : Int
  row : Int
  data : List Nat
deriving DecidableEq

/-- Outcome of one SQL query: rows, or an `sqlite3.OperationalError`
carrying its message. -/
inductive Query (α : Type) where
  | ok : α → Query α
  | opError : String → Query α
deriving DecidableEq

/-- The archive as seen through the queries the program issues:
the `metadata` table as name/value pairs (for
`SELECT value FROM metadata WHERE name = 'format'`, line 15) and the `tiles`
table (for `SELECT COUNT(*)` at line 103 and the row stream at line 110).
A missing table or an unreadable database surfaces as `Query.opError`. -/
structure Archive where
  metadata : Query (List (String × String))
  tiles : Query (List TileRow)

/-- Console output events of the program, in emission order. -/
inductive Msg where
  /-- Line 20: warning that the metadata format lookup failed. -/
  | warnNoMetadata
  /-- Line 101: detected tile format. -/
  | detectedFormat (fmt : String)
  /-- Line 106: no tiles to extract. -/
  | noTiles
  /-- Line 109: found `n` tiles to extract. -/
  | foundCount (n : Nat)
  /-- Line 127: extraction complete. -/
  | extractionComplete
  /-- Line 133: `Error: e` printed by the `sqlite3.OperationalError` handler. -/
  | operationalError (e : String)
  /-- Line 135: `An unexpected error occurred: e` printed by the
  catch-all `Exception` handler. -/
  | unexpectedError (e : String)
deriving DecidableEq

/-- `get_tile_format(cur)` (lines 9-21).  Executes the metadata query; if it
raises `OperationalError` the handler prints a warning and the default `png`
is returned.  `fetchone` yields the first matching row or `None`; the row
tuple is truthy whenever a row exists, whatever its value, so a stored value
is returned verbatim (even the empty string).  Returns the format together
with the warnings printed. -/
def get_tile_format (a : Archive) : String × List Msg :=
  match a.metadata with
  | .opError _ => ("png", [.warnNoMetadata])
  | .ok kvs =>
    match (kvs.filter (fun kv => kv.1 == "format")).head? with
    | some kv => (kv.2, [])
    | none => ("png", [])

/-- Lines 116-117: `if not tms_scheme: y = (2**zoom - 1) - y`.
Applied inside the loop, to each row with that row's own `zoom`.  Python
integer arithmetic is exact and signed, hence `Int`. -/
def transformRow (tms_scheme : Bool) (zoom : Nat) (y : Int) : Int :=
  if tms_scheme then y else ((2 : Int) ^ zoom - 1) - y

/-- `os.path.join a b` for a relative second component (POSIX separator). -/
def pathJoin (a b : String) : String := a ++ "/" ++ b

/-- Line 119: `tile_dir = os.path.join(output_dir, str(zoom), str(x))`.
Python `str` on integers is decimal notation, i.e. `Nat.repr` / `Int.repr`. -/
def tileDir (output_dir : String) (zoom : Nat) (x : Int) : String :=
  pathJoin (pathJoin output_dir (Nat.repr zoom)) (Int.repr x)

/-- Line 122: `tile_path = os.path.join(tile_dir, f"{y}.{tile_format}")`. -/
def tilePath (tile_dir : String) (y : Int) (tile_format : String) : String :=
  pathJoin tile_dir (Int.repr y ++ "." ++ tile_format)

/-- An I/O fault injected into iteration `i` of the loop:
`os.makedirs` (line 120) or the payload write (lines 123-124) raises
`OSError` with the given message. -/
inductive TileFault where
  | mkdirFail (e : String)
  | writeFail (e : String)
deriving DecidableEq

/-- The fault-free environment: every directory creation and write succeeds. -/
def noFault : Nat → Option TileFault := fun _ => none

/-- The loop body of lines 113-124, iterated over the row stream with the
iteration index threaded for fault injection.  Returns the files fully
written (path and payload, in order), the directories passed to
`os.makedirs`, and the message of the first uncaught `OSError` if any
(which aborts the loop: no retry, no skip-and-continue). -/
def exportLoop (output_dir tile_format : String) (tms_scheme : Bool)
    (fault : Nat → Option TileFault) :
    List TileRow → Nat → List (String × List Nat) × List String × Option String
  | [], _ => ([], [], none)
  | t :: ts, i =>
    let dir := tileDir output_dir t.zoom t.col
    match fault i with
    | some (.mkdirFail e) => ([], [], some e)
    | some (.writeFail e) => ([], [dir], some e)
    | none =>
      let rest := exportLoop output_dir tile_format tms_scheme fault ts (i + 1)
      ((tilePath dir (transformRow tms_scheme t.zoom t.row) tile_format, t.data) :: rest.1,
        dir :: rest.2.1, rest.2.2)

/-- Everything observable about one `extract_tiles` call. -/
structure RunResult where
  /-- Tile files fully written, as (path, payload), in write order. -/
  filesWritten : List (String × List Nat)
  /-- Directories passed to `os.makedirs(..., exist_ok=True)`, in order. -/
  dirsCreated : List String
  /-- Console messages, in order. -/
  messages : List Msg
  /-- Whether the success path reached `create_static_html_viewer` (line 130). -/
  htmlCreated : Bool
  /-- The exception escaping `extract_tiles`, if any.  The handlers at lines
  132-135 catch `sqlite3.OperationalError` and then every `Exception`, so in
  this model nothing ever escapes. -/
  raised : Option String
deriving DecidableEq

/-- `extract_tiles(db_file, output_dir, tms_scheme)` (lines 91-138).
The body runs under `try`: a failing count query is caught at line 132 and
printed as `Error: ...`; an `OSError` from the loop is caught at line 134 and
printed as `An unexpected error occurred: ...`; both handlers swallow the
exception and the function returns normally. -/
def extract_tiles (a : Archive) (output_dir : String) (tms_scheme : Bool)
    (fault : Nat → Option TileFault) : RunResult :=
  let fmtRun := get_tile_format a
  let msgs := fmtRun.2 ++ [Msg.detectedFormat fmtRun.1]
  match a.tiles with
  | .opError e => ⟨[], [], msgs ++ [.operationalError e], false, none⟩
  | .ok tiles =>
    if tiles.length = 0 then
      ⟨[], [], msgs ++ [.noTiles], false, none⟩
    else
      match exportLoop output_dir fmtRun.1 tms_scheme fault tiles 0 with
      | (files, dirs, some e) =>
        ⟨files, dirs, msgs ++ [.foundCount tiles.length, .unexpectedError e], false, none⟩
      | (files, dirs, none) =>
        ⟨files, dirs, msgs ++ [.foundCount tiles.length, .extractionComplete], true, none⟩

/-- Result of one whole process run. -/
structure MainResult where
  /-- The process exit code: 1 from `sys.exit(1)` at line 150, else 0. -/
  exitCode : Nat
  /-- Whether `os.makedirs(output_dir, exist_ok=True)` (line 165) ran. -/
  outputDirCreated : Bool
  /-- The extraction outcome, when extraction ran at all. -/
  run : Option RunResult
deriving DecidableEq

/-- `main()` (lines 140-167): if the input path is not a file, print an error
and `sys.exit(1)` before anything else; otherwise create the output
directory, run `extract_tiles`, and fall off the end (exit code 0). -/
def main (inputIsFile : Bool) (a : Archive) (output_dir : String) (tms : Bool)
    (fault : Nat → Option TileFault) : MainResult :=
  if inputIsFile then
    ⟨0, true, some (extract_tiles a output_dir tms fault)⟩
  else
    ⟨1, false, none⟩

/-- Lines 123-124: `with open(tile_path, 'wb') as f: f.write(tile_data)`.
The successive contents observable at `tile_path` by another reader:
`none` before the `open` (no file yet), `some []` right after `open` in mode
`wb` creates/truncates the file at the final destination path, and
`some tile_data` once the write completes.  There is no temporary file and no
rename: the empty (partial) state is readable under the final name. -/
def writeTileObservable (tile_data : List Nat) : List (Option (List Nat)) :=
  [none, some [], some tile_data]

/-! ### Decimal digit strings

`Nat.repr` is built from the fuel-based `Nat.toDigitsCore`.  To reason about
the file names `str(zoom)`, `str(x)` and `f"{y}.{fmt}"` we relate it to the
structural recursion `decChars` and prove decimal notation injective and free
of the separator characters `/` and `.`. -/

/-- Decimal digit characters of `n`, most significant first. -/
def decChars (n : Nat) : List Char :=
  if n < 10 then [Nat.digitChar n]
  else decChars (n / 10) ++ [Nat.digitChar (n % 10)]
decreasing_by exact Nat.div_lt_self (by omega) (by omega)

theorem toDigitsCore_eq_decChars :
    ∀ (fuel n : Nat) (ds : List Char), n < fuel →
      Nat.toDigitsCore 10 fuel n ds = decChars n ++ ds := by
  intro fuel
  induction fuel with
  | zero => intro n ds h; omega
  | succ fuel ih =>
    intro n ds h
    rw [Nat.toDigitsCore]
    by_cases h10 : n / 10 = 0
    · have hn : n < 10 := by omega
      have : n % 10 = n := by omega
      simp only [h10, if_pos rfl, this]
      rw [decChars, if_pos hn]
      rfl
    · have hlt : n / 10 < fuel := by omega
      rw [if_neg h10, ih (n / 10) _ hlt]
      conv_rhs => rw [decChars]
      rw [if_neg (by omega : ¬ n < 10)]
      simp [List.append_assoc]

theorem nat_repr_data (n : Nat) : (Nat.repr n).data = decChars n := by
  show (Nat.toDigits 10 n).asString.data = decChars n
  rw [Nat.toDigits, toDigitsCore_eq_decChars (n + 1) n [] (by omega)]
  simp [List.asString]

/-- Numeric value of a decimal digit character. -/
def charVal (c : Char) : Nat := c.toNat - 48

/-- Value of a decimal digit string, most significant first. -/
def charsVal (l : List Char) : Nat := l.foldl (fun a c => 10 * a + charVal c) 0

theorem charsVal_append_singleton (l : List Char) (c : Char) :
    charsVal (l ++ [c]) = 10 * charsVal l + charVal c := by
  simp [charsVal, List.foldl_append]

theorem charVal_digitChar (d : Nat) (h : d < 10) :
    charVal (Nat.digitChar d) = d := by
  interval_cases d <;> decide

theorem digitChar_isDigit (d : Nat) (h : d < 10) :
    (Nat.digitChar d).isDigit = true := by
  interval_cases d <;> decide

theorem decChars_isDigit :
    ∀ n : Nat, ∀ c ∈ decChars n, c.isDigit = true := by
  intro n
  induction n using Nat.strong_induction_on with
  | _ n ih =>
    intro c hc
    rw [decChars] at hc
    by_cases h : n < 10
    · rw [if_pos h] at hc
      simp only [List.mem_singleton] at hc
      exact hc ▸ digitChar_isDigit n h
    · rw [if_neg h] at hc
      rcases List.mem_append.1 hc with h1 | h1
      · exact ih (n / 10) (Nat.div_lt_self (by omega) (by omega)) c h1
      · simp only [List.mem_singleton] at h1
        exact h1 ▸ digitChar_isDigit (n % 10) (by omega)

theorem charsVal_decChars : ∀ n : Nat, charsVal (decChars n) = n := by
  intro n
  induction n using Nat.strong_induction_on with
  | _ n ih =>
    rw [decChars]
    by_cases h : n < 10
    · rw [if_pos h]
      show 10 * 0 + charVal (Nat.digitChar n) = n
      rw [charVal_digitChar n h]; omega
    · rw [if_neg h, charsVal_append_singleton,
        ih (n / 10) (Nat.div_lt_self (by omega) (by omega)),
        charVal_digitChar (n % 10) (by omega)]
      omega

theorem decChars_ne_nil (n : Nat) : decChars n ≠ [] := by
  rw [decChars]
  by_cases h : n < 10
  · rw [if_pos h]; simp
  · rw [if_neg h]; simp

theorem nat_repr_inj {m n : Nat} (h : Nat.repr m = Nat.repr n) : m = n := by
  have hd : decChars m = decChars n := by
    rw [← nat_repr_data, ← nat_repr_data, h]
  rw [← charsVal_decChars m, ← charsVal_decChars n, hd]

theorem slash_not_mem_decChars (n : Nat) : '/' ∉ decChars n := by
  intro h
  have := decChars_isDigit n _ h
  simp [Char.isDigit] at this

theorem dot_not_mem_decChars (n : Nat) : '.' ∉ decChars n := by
  intro h
  have := decChars_isDigit n _ h
  simp [Char.isDigit] at this

theorem dash_not_mem_decChars (n : Nat) : '-' ∉ decChars n := by
  intro h
  have := decChars_isDigit n _ h
  simp [Char.isDigit] at this

theorem int_repr_data : ∀ i : Int,
    (Int.repr i).data = match i with
      | .ofNat m => decChars m
      | .negSucc m => '-' :: decChars (m + 1) := by
  intro i
  cases i with
  | ofNat m => exact nat_repr_data m
  | negSucc m =>
    show (("-" : String) ++ Nat.repr (m + 1)).data = _
    rw [String.data_append, nat_repr_data]
    rfl

theorem int_repr_inj {i j : Int} (h : Int.repr i = Int.repr j) : i = j := by
  have hd := congrArg String.data h
  rw [int_repr_data, int_repr_data] at hd
  cases i with
  | ofNat m =>
    cases j with
    | ofNat n =>
      simp only at hd
      have : m = n := by
        rw [← charsVal_decChars m, ← charsVal_decChars n, hd]
      exact congrArg Int.ofNat this
    | negSucc n =>
      simp only at hd
      exact absurd (hd ▸ List.mem_cons_self '-' _) (dash_not_mem_decChars m)
  | negSucc m =>
    cases j with
    | ofNat n =>
      simp only at hd
      exact absurd (hd.symm ▸ List.mem_cons_self '-' _) (dash_not_mem_decChars n)
    | negSucc n =>
      simp only [List.cons.injEq, true_and] at hd
      have : m + 1 = n + 1 := by
        rw [← charsVal_decChars (m + 1), ← charsVal_decChars (n + 1), hd]
      exact congrArg Int.negSucc (by omega)

theorem slash_not_mem_int_repr (i : Int) : '/' ∉ (Int.repr i).data := by
  rw [int_repr_data]
  cases i with
  | ofNat m => exact slash_not_mem_decChars m
  | negSucc m =>
    intro h
    rcases List.mem_cons.1 h with h1 | h1
    · exact absurd h1 (by decide)
    · exact slash_not_mem_decChars (m + 1) h1

theorem dot_not_mem_int_repr (i : Int) : '.' ∉ (Int.repr i).data := by
  rw [int_repr_data]
  cases i with
  | ofNat m => exact dot_not_mem_decChars m
  | negSucc m =>
    intro h
    rcases List.mem_cons.1 h with h1 | h1
    · exact absurd h1 (by decide)
    · exact dot_not_mem_decChars (m + 1) h1

theorem nat_repr_data_inj {m n : Nat} (h : (Nat.repr m).data = (Nat.repr n).data) :
    m = n :=
  nat_repr_inj (String.ext h)

theorem int_repr_data_inj {i j : Int} (h : (Int.repr i).data = (Int.repr j).data) :
    i = j :=
  int_repr_inj (String.ext h)

theorem slash_not_mem_nat_repr (n : Nat) : '/' ∉ (Nat.repr n).data := by
  rw [nat_repr_data]; exact slash_not_mem_decChars n

/-- Splitting a character list at a separator that occurs in neither prefix. -/
theorem append_cons_inj {c : Char} :
    ∀ (a b r s : List Char), c ∉ a → c ∉ b →
      a ++ c :: r = b ++ c :: s → a = b ∧ r = s := by
  intro a
  induction a with
  | nil =>
    intro b r s _ hb h
    cases b with
    | nil =>
      refine ⟨rfl, ?_⟩
      simpa using h
    | cons b0 bt =>
      simp only [List.nil_append, List.cons_append, List.cons.injEq] at h
      exact absurd (List.mem_cons.2 (Or.inl h.1)) hb
  | cons x xs ih =>
    intro b r s ha hb h
    cases b with
    | nil =>
      simp only [List.cons_append, List.nil_append, List.cons.injEq] at h
      exact absurd (List.mem_cons.2 (Or.inl h.1.symm)) ha
    | cons b0 bt =>
      simp only [List.cons_append, List.cons.injEq] at h
      obtain ⟨hx, ht⟩ := h
      have hxs : c ∉ xs := fun hm => ha (List.mem_cons.2 (Or.inr hm))
      have hbt : c ∉ bt := fun hm => hb (List.mem_cons.2 (Or.inr hm))
      obtain ⟨h1, h2⟩ := ih bt r s hxs hbt ht
      exact ⟨by rw [hx, h1], h2⟩

/-- The destination path, decomposed into its components at character level. -/
theorem tilePath_data (od fmt : String) (z : Nat) (x y : Int) :
    (tilePath (tileDir od z x) y fmt).data =
      od.data ++ '/' :: ((Nat.repr z).data ++ '/' :: ((Int.repr x).data ++
        '/' :: ((Int.repr y).data ++ '.' :: fmt.data))) := by
  simp [tilePath, tileDir, pathJoin, List.append_assoc]

/-- Distinct `(zoom, column, outputRow)` triples give distinct destination
paths, for any shared output directory and format string. -/
theorem tilePath_inj {od fmt : String} {z1 z2 : Nat} {x1 x2 y1 y2 : Int}
    (h : tilePath (tileDir od z1 x1) y1 fmt = tilePath (tileDir od z2 x2) y2 fmt) :
    z1 = z2 ∧ x1 = x2 ∧ y1 = y2 := by
  have hd := congrArg String.data h
  rw [tilePath_data, tilePath_data] at hd
  have h0 := List.append_cancel_left hd
  have h1 : (Nat.repr z1).data ++ '/' :: ((Int.repr x1).data ++
      '/' :: ((Int.repr y1).data ++ '.' :: fmt.data)) =
      (Nat.repr z2).data ++ '/' :: ((Int.repr x2).data ++
      '/' :: ((Int.repr y2).data ++ '.' :: fmt.data)) := by
    injection h0
  obtain ⟨hz, h2⟩ := append_cons_inj _ _ _ _
    (slash_not_mem_nat_repr z1) (slash_not_mem_nat_repr z2) h1
  obtain ⟨hx, h3⟩ := append_cons_inj _ _ _ _
    (slash_not_mem_int_repr x1) (slash_not_mem_int_repr x2) h2
  obtain ⟨hy, _⟩ := append_cons_inj _ _ _ _
    (dot_not_mem_int_repr y1) (dot_not_mem_int_repr y2) h3
  exact ⟨nat_repr_data_inj hz, int_repr_data_inj hx, int_repr_data_inj hy⟩

/-- The row transform is injective in the row, in both modes. -/
theorem transformRow_inj (tms : Bool) (z : Nat) {y1 y2 : Int}
    (h : transformRow tms z y1 = transformRow tms z y2) : y1 = y2 := by
  cases tms <;> simp only [transformRow, if_pos, if_neg, Bool.false_eq_true,
    ite_false, ite_true] at h <;> omega

/-! ### Characterization of the export loop -/

theorem exportLoop_noFault (od fmt : String) (tms : Bool) :
    ∀ (ts : List TileRow) (i : Nat),
      exportLoop od fmt tms noFault ts i =
        (ts.map (fun t =>
          (tilePath (tileDir od t.zoom t.col) (transformRow tms t.zoom t.row) fmt,
            t.data)),
         ts.map (fun t => tileDir od t.zoom t.col), none) := by
  intro ts
  induction ts with
  | nil => intro i; rfl
  | cons t ts ih =>
    intro i
    simp [exportLoop, noFault, ih (i + 1)]

theorem extract_tiles_noFault (md : Query (List (String × String)))
    (ts : List TileRow) (od : String) (tms : Bool) :
    (extract_tiles ⟨md, .ok ts⟩ od tms noFault).filesWritten =
      ts.map (fun t =>
        (tilePath (tileDir od t.zoom t.col) (transformRow tms t.zoom t.row)
          (get_tile_format ⟨md, Query.ok ts⟩).1, t.data)) := by
  by_cases h : ts.length = 0
  · have he : ts = [] := List.length_eq_zero.1 h
    subst he
    simp [extract_tiles]
  · simp [extract_tiles, h, exportLoop_noFault]

/-- On a fault-free run over a non-empty tile list the whole result. -/
theorem extract_tiles_noFault_full (md : Query (List (String × String)))
    (ts : List TileRow) (od : String) (tms : Bool) (h : ts ≠ []) :
    extract_tiles ⟨md, .ok ts⟩ od tms noFault =
      ⟨ts.map (fun t =>
          (tilePath (tileDir od t.zoom t.col) (transformRow tms t.zoom t.row)
            (get_tile_format ⟨md, Query.ok ts⟩).1, t.data)),
        ts.map (fun t => tileDir od t.zoom t.col),
        (get_tile_format ⟨md, Query.ok ts⟩).2 ++
          [Msg.detectedFormat (get_tile_format ⟨md, Query.ok ts⟩).1,
            Msg.foundCount ts.length, Msg.extractionComplete],
        true, none⟩ := by
  have hl : ¬ ts.length = 0 := by
    intro h0
    exact h (List.length_eq_zero.1 h0)
  simp [extract_tiles, hl, exportLoop_noFault]

/-- A fault at loop index `k` (all earlier iterations clean) aborts the loop:
the first `k` tiles are fully written, later ones are not touched. -/
theorem exportLoop_fault (od fmt : String) (tms : Bool) (e : String)
    (fault : Nat → Option TileFault) :
    ∀ (ts : List TileRow) (k i : Nat), k < ts.length →
      (∀ j, j < k → fault (i + j) = none) →
      fault (i + k) = some (.writeFail e) →
      exportLoop od fmt tms fault ts i =
        ((ts.take k).map (fun t =>
          (tilePath (tileDir od t.zoom t.col) (transformRow tms t.zoom t.row) fmt,
            t.data)),
         (ts.take (k + 1)).map (fun t => tileDir od t.zoom t.col), some e) := by
  intro ts
  induction ts with
  | nil => intro k i hk _ _; simp at hk
  | cons t ts ih =>
    intro k i hk hpre hf
    cases k with
    | zero =>
      have : fault i = some (.writeFail e) := by simpa using hf
      simp [exportLoop, this]
    | succ k =>
      have h0 : fault i = none := by
        have := hpre 0 (by omega)
        simpa using this
      have hpre' : ∀ j, j < k → fault (i + 1 + j) = none := by
        intro j hj
        have := hpre (j + 1) (by omega)
        rw [← this]
        ring_nf
      have hf' : fault (i + 1 + k) = some (.writeFail e) := by
        rw [← hf]
        ring_nf
      have hk' : k < ts.length := by simpa using hk
      simp [exportLoop, h0, ih k (i + 1) hk' hpre' hf']

/-- A directory-creation fault at loop index `k` (all earlier iterations
clean) aborts the loop: the first `k` tiles are fully written and only their
directories were requested (`os.makedirs` raises before the failing tile's
directory is recorded or its file opened). -/
theorem exportLoop_fault_mkdir (od fmt : String) (tms : Bool) (e : String)
    (fault : Nat → Option TileFault) :
    ∀ (ts : List TileRow) (k i : Nat), k < ts.length →
      (∀ j, j < k → fault (i + j) = none) →
      fault (i + k) = some (.mkdirFail e) →
      exportLoop od fmt tms fault ts i =
        ((ts.take k).map (fun t =>
          (tilePath (tileDir od t.zoom t.col) (transformRow tms t.zoom t.row) fmt,
            t.data)),
         (ts.take k).map (fun t => tileDir od t.zoom t.col), some e) := by
  intro ts
  induction ts with
  | nil => intro k i hk _ _; simp at hk
  | cons t ts ih =>
    intro k i hk hpre hf
    cases k with
    | zero =>
      have : fault i = some (.mkdirFail e) := by simpa using hf
      simp [exportLoop, this]
    | succ k =>
      have h0 : fault i = none := by
        have := hpre 0 (by omega)
        simpa using this
      have hpre2 : ∀ j, j < k → fault (i + 1 + j) = none := by
        intro j hj
        have := hpre (j + 1) (by omega)
        rw [← this]
        ring_nf
      have hf2 : fault (i + 1 + k) = some (.mkdirFail e) := by
        rw [← hf]
        ring_nf
      have hk2 : k < ts.length := by simpa using hk
      simp [exportLoop, h0, ih k (i + 1) hk2 hpre2 hf2]

/-! ### Claims -/

/-- C1: for every tile row the exporter computes the output row from that
row's own zoom level: under TMS the output row is the stored row unchanged
(identity, no transform), under the default XYZ mode it is
`(2^zoom - 1) - storedRow`; every written file's path applies the transform
at its own row's zoom, per row, never once globally from a single zoom. -/
theorem c1_per_row_transform (md : Query (List (String × String)))
    (ts : List TileRow) (od : String) (tms : Bool) :
    (extract_tiles ⟨md, .ok ts⟩ od tms noFault).filesWritten =
      ts.map (fun t =>
        (tilePath (tileDir od t.zoom t.col) (transformRow tms t.zoom t.row)
          (get_tile_format ⟨md, Query.ok ts⟩).1, t.data)) ∧
    (∀ (z : Nat) (y : Int), transformRow true z y = y) ∧
    (∀ (z : Nat) (y : Int), transformRow false z y = ((2 : Int) ^ z - 1) - y) :=
  ⟨extract_tiles_noFault md ts od tms, fun _ _ => rfl, fun _ _ => rfl⟩

/-- C2 as stated is false at a concrete input: during the write of the
1-byte payload `[7]` a 0-byte file is readable at the final destination path
(the `open` in mode `wb` creates/truncates the file at the final path before
the payload bytes are written), i.e. a state with fewer bytes than the
source blob is observable under the final name. -/
theorem c2_partial_write_counterexample :
    some [] ∈ writeTileObservable [7] ∧
      List.length ([] : List Nat) < List.length [7] := by
  constructor
  · simp [writeTileObservable]
  · decide

/-- C2 amended: the payload write is not atomic: the file is opened in mode
`wb` directly at the final destination path, which creates/truncates it
there before any payload byte is written, so for every non-empty payload an
intermediate state with fewer bytes than the source blob is readable at the
final path; only the last observable state holds the full payload. -/
theorem c2_write_not_atomic (tile_data : List Nat) (h : tile_data ≠ []) :
    (∃ c ∈ writeTileObservable tile_data, ∃ bytes : List Nat,
      c = some bytes ∧ bytes.length < tile_data.length) ∧
    (writeTileObservable tile_data).getLast? = some (some tile_data) := by
  refine ⟨⟨some [], ?_, [], rfl, ?_⟩, rfl⟩
  · simp [writeTileObservable]
  · simpa using List.length_pos.2 h

/-- Witness for the amended C2 at the concrete payload `[7]`. -/
theorem c2_write_not_atomic_witness :
    ([7] : List Nat) ≠ [] ∧
      ((∃ c ∈ writeTileObservable [7], ∃ bytes : List Nat,
        c = some bytes ∧ bytes.length < List.length [7]) ∧
      (writeTileObservable [7]).getLast? = some (some [7])) :=
  ⟨by decide, c2_write_not_atomic [7] (by decide)⟩

/-- C3 as stated is false at a concrete input: with one tile whose write
fails with `disk full`, nothing surfaces to the caller of `extract_tiles`
(the handler at line 134 swallows the exception, `raised = none`) and the
process exit code is 0, not non-zero. -/
theorem c3_write_failure_counterexample :
    (main true ⟨.ok [], .ok [⟨0, 0, 0, [1]⟩]⟩ "out" false
      (fun _ => some (.writeFail "disk full"))).exitCode = 0 ∧
    (extract_tiles ⟨.ok [], .ok [⟨0, 0, 0, [1]⟩]⟩ "out" false
      (fun _ => some (.writeFail "disk full"))).raised = none :=
  ⟨rfl, rfl⟩

/-- C3 amended: the first failing I/O operation — a tile write or a
directory creation alike — aborts extraction: exactly the tiles before it
stay written (no per-tile retry, no skip-and-continue); a failing write had
already requested its tile's directory while a failing `os.makedirs` had
not; the I/O error is printed as an unexpected-error message that carries
only the error text (not the count of tiles already written), the exception
is swallowed inside `extract_tiles` (nothing is surfaced to the caller),
and the process exits 0. -/
theorem c3_io_failure_aborts (md : Query (List (String × String)))
    (ts : List TileRow) (od : String) (tms : Bool) (e : String)
    (fault : Nat → Option TileFault) (k : Nat) (hk : k < ts.length)
    (hpre : ∀ j, j < k → fault j = none) :
    (fault k = some (.writeFail e) →
      extract_tiles ⟨md, .ok ts⟩ od tms fault =
        ⟨(ts.take k).map (fun t =>
            (tilePath (tileDir od t.zoom t.col) (transformRow tms t.zoom t.row)
              (get_tile_format ⟨md, Query.ok ts⟩).1, t.data)),
          (ts.take (k + 1)).map (fun t => tileDir od t.zoom t.col),
          (get_tile_format ⟨md, Query.ok ts⟩).2 ++
            [Msg.detectedFormat (get_tile_format ⟨md, Query.ok ts⟩).1,
              Msg.foundCount ts.length, Msg.unexpectedError e],
          false, none⟩) ∧
    (fault k = some (.mkdirFail e) →
      extract_tiles ⟨md, .ok ts⟩ od tms fault =
        ⟨(ts.take k).map (fun t =>
            (tilePath (tileDir od t.zoom t.col) (transformRow tms t.zoom t.row)
              (get_tile_format ⟨md, Query.ok ts⟩).1, t.data)),
          (ts.take k).map (fun t => tileDir od t.zoom t.col),
          (get_tile_format ⟨md, Query.ok ts⟩).2 ++
            [Msg.detectedFormat (get_tile_format ⟨md, Query.ok ts⟩).1,
              Msg.foundCount ts.length, Msg.unexpectedError e],
          false, none⟩) ∧
    (main true ⟨md, .ok ts⟩ od tms fault).exitCode = 0 := by
  have hl : ¬ ts.length = 0 := by omega
  refine ⟨?_, ?_, rfl⟩
  · intro hf
    have hloop := exportLoop_fault od (get_tile_format ⟨md, Query.ok ts⟩).1 tms e fault
      ts k 0 hk (by intro j hj; simpa using hpre j hj) (by simpa using hf)
    simp [extract_tiles, hl, hloop]
  · intro hf
    have hloop := exportLoop_fault_mkdir od (get_tile_format ⟨md, Query.ok ts⟩).1
      tms e fault ts k 0 hk (by intro j hj; simpa using hpre j hj)
      (by simpa using hf)
    simp [extract_tiles, hl, hloop]

/-- Witness for the amended C3: a one-tile archive whose only write fails,
and the same archive whose directory creation fails. -/
theorem c3_io_failure_aborts_witness :
    extract_tiles ⟨Query.ok [], Query.ok [⟨0, 0, 0, [1]⟩]⟩ "o" true
        (fun _ => some (TileFault.writeFail "boom")) =
      ⟨[], [tileDir "o" 0 0],
        [Msg.detectedFormat "png", Msg.foundCount 1, Msg.unexpectedError "boom"],
        false, none⟩ ∧
    extract_tiles ⟨Query.ok [], Query.ok [⟨0, 0, 0, [1]⟩]⟩ "o" true
        (fun _ => some (TileFault.mkdirFail "denied")) =
      ⟨[], [],
        [Msg.detectedFormat "png", Msg.foundCount 1, Msg.unexpectedError "denied"],
        false, none⟩ ∧
    (main true ⟨Query.ok [], Query.ok [⟨0, 0, 0, [1]⟩]⟩ "o" true
        (fun _ => some (TileFault.mkdirFail "denied"))).exitCode = 0 :=
  ⟨(c3_io_failure_aborts (Query.ok []) [⟨0, 0, 0, [1]⟩] "o" true "boom"
      (fun _ => some (TileFault.writeFail "boom")) 0 (by decide)
      (fun j hj => absurd hj (by omega))).1 rfl,
    (c3_io_failure_aborts (Query.ok []) [⟨0, 0, 0, [1]⟩] "o" true "denied"
      (fun _ => some (TileFault.mkdirFail "denied")) 0 (by decide)
      (fun j hj => absurd hj (by omega))).2.1 rfl,
    (c3_io_failure_aborts (Query.ok []) [⟨0, 0, 0, [1]⟩] "o" true "denied"
      (fun _ => some (TileFault.mkdirFail "denied")) 0 (by decide)
      (fun j hj => absurd hj (by omega))).2.2⟩

/-- C4 as stated is false at a concrete input: an archive whose tables
cannot be read (both queries raise OperationalError, as for a file that is
not a valid database or lacks a tile-row source) aborts extraction, yet the
condition is not reported up to the caller — the handler at line 132 catches
the exception (`raised = none`) — and the process exits 0. -/
theorem c4_unreadable_counterexample :
    (extract_tiles ⟨Query.opError "no such table: metadata",
        Query.opError "no such table: tiles"⟩ "out" false noFault).raised = none ∧
    (main true ⟨Query.opError "no such table: metadata",
        Query.opError "no such table: tiles"⟩ "out" false noFault).exitCode = 0 :=
  ⟨rfl, rfl⟩

/-- C4 amended: a missing input file is fatal in `main` (exit 1, before any
extraction); an archive with no readable tile-row source aborts extraction
before any file or directory output with an `Error:` message printed, but
the exception is swallowed inside `extract_tiles` (not reported to the
caller) and the process exits 0; this is distinct from the recoverable
missing-format-metadata case, which only warns, substitutes `png`, and
extracts every tile normally. -/
theorem c4_unreadable_behavior (a : Archive) (od : String) (tms : Bool)
    (fault : Nat → Option TileFault) :
    main false a od tms fault = ⟨1, false, none⟩ ∧
    (∀ e, a.tiles = .opError e →
      extract_tiles a od tms fault =
        ⟨[], [], (get_tile_format a).2 ++
          [Msg.detectedFormat (get_tile_format a).1, Msg.operationalError e],
          false, none⟩ ∧
      (main true a od tms fault).exitCode = 0) ∧
    (∀ (e : String) (ts : List TileRow),
      (extract_tiles ⟨Query.opError e, Query.ok ts⟩ od tms
          noFault).filesWritten.length = ts.length ∧
      get_tile_format ⟨Query.opError e, Query.ok ts⟩ =
        ("png", [Msg.warnNoMetadata])) := by
  obtain ⟨md, tq⟩ := a
  refine ⟨rfl, ?_, ?_⟩
  · intro e he
    cases he
    exact ⟨by simp [extract_tiles], rfl⟩
  · intro e ts
    refine ⟨?_, rfl⟩
    rw [extract_tiles_noFault]
    simp

/-- Witness for the amended C4: an archive whose tiles table is missing. -/
theorem c4_unreadable_behavior_witness :
    extract_tiles ⟨Query.ok [], Query.opError "no such table: tiles"⟩ "o" false
        noFault =
      ⟨[], [],
        [Msg.detectedFormat "png", Msg.operationalError "no such table: tiles"],
        false, none⟩ ∧
    (main true ⟨Query.ok [], Query.opError "no such table: tiles"⟩ "o" false
        noFault).exitCode = 0 :=
  (c4_unreadable_behavior ⟨Query.ok [], Query.opError "no such table: tiles"⟩
      "o" false noFault).2.1 "no such table: tiles" rfl

/-- C5 as stated is false at a concrete input: a metadata `format` key that
is present with the empty string as value is returned verbatim (the fetched
row tuple is truthy whatever its value), not replaced by the default
`png`. -/
theorem c5_empty_format_counterexample :
    (get_tile_format ⟨Query.ok [("format", "")], Query.ok []⟩).1 = "" ∧
      ("" : String) ≠ "png" := by
  exact ⟨rfl, by decide⟩

/-- C5 amended: the lookup returns the stored value exactly when a row for
the `format` key exists — even when that value is the empty string; it
returns the literal default `png` when the key is absent or the metadata
query fails (OperationalError), emitting a warning only in the failure case;
it never raises to its caller (it always returns a format string). -/
theorem c5_format_lookup (a : Archive) :
    (∀ kvs, a.metadata = .ok kvs →
      (∀ kv, (kvs.filter (fun p => p.1 == "format")).head? = some kv →
        get_tile_format a = (kv.2, [])) ∧
      ((kvs.filter (fun p => p.1 == "format")).head? = none →
        get_tile_format a = ("png", []))) ∧
    (∀ e, a.metadata = .opError e →
      get_tile_format a = ("png", [Msg.warnNoMetadata])) := by
  obtain ⟨md, tq⟩ := a
  constructor
  · intro kvs hm
    cases hm
    constructor
    · intro kv hh
      simp [get_tile_format, hh]
    · intro hh
      simp [get_tile_format, hh]
  · intro e hm
    cases hm
    rfl

/-- Witness for the amended C5: a stored non-empty format is returned. -/
theorem c5_format_lookup_witness :
    get_tile_format ⟨Query.ok [("format", "jpg")], Query.ok []⟩ = ("jpg", []) :=
  ((c5_format_lookup ⟨Query.ok [("format", "jpg")], Query.ok []⟩).1
    [("format", "jpg")] rfl).1 ("format", "jpg") rfl

/-- C6: an archive with zero tile rows does no work: the exporter reports
that there is nothing to extract, writes no files, creates no directories,
does not build the HTML viewer, raises nothing, and the process exits 0. -/
theorem c6_empty_archive (md : Query (List (String × String)))
    (od : String) (tms : Bool) (fault : Nat → Option TileFault) :
    extract_tiles ⟨md, .ok []⟩ od tms fault =
      ⟨[], [], (get_tile_format ⟨md, Query.ok []⟩).2 ++
        [Msg.detectedFormat (get_tile_format ⟨md, Query.ok []⟩).1, Msg.noTiles],
        false, none⟩ ∧
    (main true ⟨md, .ok []⟩ od tms fault).exitCode = 0 :=
  ⟨by simp [extract_tiles], rfl⟩

/-- C7: extracting an archive whose tile rows have pairwise-distinct
(zoom, column, row) triples writes exactly one file per row — `N` rows give
`N` written files — and the written destination paths are pairwise distinct,
so no write clobbers another and no extra tile file appears. -/
theorem c7_distinct_tiles (md : Query (List (String × String)))
    (ts : List TileRow) (od : String) (tms : Bool)
    (h : (ts.map (fun t => (t.zoom, t.col, t.row))).Nodup) :
    (extract_tiles ⟨md, .ok ts⟩ od tms noFault).filesWritten.length = ts.length ∧
    ((extract_tiles ⟨md, .ok ts⟩ od tms noFault).filesWritten.map
      Prod.fst).Nodup := by
  rw [extract_tiles_noFault]
  refine ⟨by simp, ?_⟩
  rw [List.map_map]
  have hcomp : (Prod.fst ∘ fun t : TileRow =>
      (tilePath (tileDir od t.zoom t.col) (transformRow tms t.zoom t.row)
        (get_tile_format ⟨md, Query.ok ts⟩).1, t.data)) =
      (fun p : Nat × Int × Int =>
        tilePath (tileDir od p.1 p.2.1) (transformRow tms p.1 p.2.2)
          (get_tile_format ⟨md, Query.ok ts⟩).1) ∘
      (fun t : TileRow => (t.zoom, t.col, t.row)) := rfl
  rw [hcomp, ← List.map_map]
  refine List.Nodup.map ?_ h
  intro p q hpq
  obtain ⟨hz, hx, hy⟩ := tilePath_inj hpq
  rw [hz] at hy
  have hyy := transformRow_inj tms q.1 hy
  obtain ⟨p1, p2, p3⟩ := p
  obtain ⟨q1, q2, q3⟩ := q
  simp_all

/-- Witness for C7: two distinct tiles produce two distinct files. -/
theorem c7_distinct_tiles_witness :
    (([⟨1, 0, 0, [1]⟩, ⟨1, 0, 1, [2]⟩] : List TileRow).map
        (fun t => (t.zoom, t.col, t.row))).Nodup ∧
    ((extract_tiles ⟨Query.ok [], Query.ok [⟨1, 0, 0, [1]⟩, ⟨1, 0, 1, [2]⟩]⟩
        "o" false noFault).filesWritten.length = 2 ∧
      ((extract_tiles ⟨Query.ok [], Query.ok [⟨1, 0, 0, [1]⟩, ⟨1, 0, 1, [2]⟩]⟩
        "o" false noFault).filesWritten.map Prod.fst).Nodup) :=
  ⟨by decide, c7_distinct_tiles (Query.ok []) [⟨1, 0, 0, [1]⟩, ⟨1, 0, 1, [2]⟩]
    "o" false (by decide)⟩

/-- C8: the destination file path is
`outputDir/<zoom>/<column>/<outputRow>.<format>`; the tile
(zoom 1, column 0, row 0) with format `png` is written to
`outputDir/1/0/1.png` under the default XYZ convention and to
`outputDir/1/0/0.png` under the TMS convention. -/
theorem c8_output_layout (od : String) (payload : List Nat) :
    (extract_tiles ⟨.ok [], .ok [⟨1, 0, 0, payload⟩]⟩ od false noFault).filesWritten =
      [(od ++ "/1/0/1.png", payload)] ∧
    (extract_tiles ⟨.ok [], .ok [⟨1, 0, 0, payload⟩]⟩ od true noFault).filesWritten =
      [(od ++ "/1/0/0.png", payload)] ∧
    (∀ (fmt : String) (tms : Bool) (t : TileRow),
      tilePath (tileDir od t.zoom t.col) (transformRow tms t.zoom t.row) fmt =
        od ++ "/" ++ Nat.repr t.zoom ++ "/" ++ Int.repr t.col ++ "/" ++
          Int.repr (transformRow tms t.zoom t.row) ++ "." ++ fmt) := by
  have hz : Nat.repr 1 = "1" := rfl
  have hx : Int.repr (0 : Int) = "0" := rfl
  have hy : Int.repr (1 : Int) = "1" := rfl
  refine ⟨?_, ?_, ?_⟩
  · rw [extract_tiles_noFault]
    have h1 : transformRow false 1 0 = 1 := by decide
    simp [h1, tilePath, tileDir, pathJoin, get_tile_format, hz, hx, hy,
      String.ext_iff, List.append_assoc]
  · rw [extract_tiles_noFault]
    have h1 : transformRow true 1 0 = 0 := by decide
    simp [h1, tilePath, tileDir, pathJoin, get_tile_format, hz, hx,
      String.ext_iff, List.append_assoc]
  · intro fmt tms t
    apply String.ext
    simp [tilePath, tileDir, pathJoin, List.append_assoc]

/-- C9: the XYZ flip `(2^zoom - 1) - r` is a self-inverse involution on the
stored-row range `[0, 2^zoom - 1]`: applying it to the already-flipped value
gives back the stored row. -/
theorem c9_flip_involution (zoom : Nat) (r : Int) (_h0 : 0 ≤ r)
    (_h1 : r ≤ 2 ^ zoom - 1) :
    transformRow false zoom (transformRow false zoom r) = r := by
  simp only [transformRow, Bool.false_eq_true, if_false]
  ring

/-- Witness for C9 at zoom 1, stored row 0. -/
theorem c9_flip_involution_witness :
    (0 : Int) ≤ 0 ∧ (0 : Int) ≤ 2 ^ 1 - 1 ∧
      transformRow false 1 (transformRow false 1 0) = 0 :=
  ⟨by decide, by decide, c9_flip_involution 1 0 (by decide) (by decide)⟩

/-- C10: the exporter performs no range validation on tile coordinates: a
single-row archive is extracted to exactly one written file with no error
whatever its stored row, the XYZ transform being applied regardless; a
stored row above `2^zoom - 1` yields a negative output row, hence a file
name that is a negative integer — concretely, the out-of-range tile
(zoom 0, column 0, row 1) is written to the file `-1.png` inside the
directory `outputDir/0/0`. -/
theorem c10_no_range_validation (od : String) (payload : List Nat) :
    (extract_tiles ⟨.ok [], .ok [⟨0, 0, 1, payload⟩]⟩ od false noFault).filesWritten =
      [(od ++ "/0/0/-1.png", payload)] ∧
    (extract_tiles ⟨.ok [], .ok [⟨0, 0, 1, payload⟩]⟩ od false noFault).raised =
      none ∧
    (∀ (z : Nat) (x y : Int) (d : List Nat),
      (extract_tiles ⟨.ok [], .ok [⟨z, x, y, d⟩]⟩ od false
          noFault).filesWritten.length = 1 ∧
      (extract_tiles ⟨.ok [], .ok [⟨z, x, y, d⟩]⟩ od false noFault).raised =
        none) ∧
    (∀ (z : Nat) (y : Int), ((2 : Int) ^ z - 1) < y →
      transformRow false z y < 0) := by
  refine ⟨?_, rfl, fun z x y d => ⟨rfl, rfl⟩, ?_⟩
  · rw [extract_tiles_noFault]
    have h1 : transformRow false 0 1 = -1 := by decide
    have hz0 : Nat.repr 0 = "0" := rfl
    have hx0 : Int.repr (0 : Int) = "0" := rfl
    have hym : Int.repr (-1 : Int) = "-1" := rfl
    simp [h1, tilePath, tileDir, pathJoin, get_tile_format, hz0, hx0, hym,
      String.ext_iff, List.append_assoc]
  · intro z y h
    simp only [transformRow, Bool.false_eq_true, if_false]
    linarith

/-- Witness for C10: the out-of-range stored row 1 at zoom 0 flips to a
negative output row. -/
theorem c10_no_range_validation_witness :
    ((2 : Int) ^ (0 : Nat) - 1) < 1 ∧ transformRow false 0 1 < 0 :=
  ⟨by decide, (c10_no_range_validation "o" []).2.2.2 0 1 (by decide)⟩

end Freemap
